import Mathlib

/-!
Shallow embedding of the Tock radio driver capsule
(`src/capsules/src/radio.rs`) and the parts of the hardware radio
capability interface it consumes.

Byte buffers are modelled as `List Nat`; callbacks are identified by a
`Nat` handle; `Cell`/`TakeCell` contents become plain fields of an
explicit driver state.  Paths that would panic in Rust (out-of-bounds
slice indexing during a copy) are modelled by `Option`: `none` means the
operation faults and produces no post-state.
-/

/-- Result codes of `kernel::returncode::ReturnCode` as used by
`radio.rs` (the enum itself lives outside the shown sources; the
constructors listed here are exactly the ones `radio.rs` mentions, plus
`FAIL` as a generic hardware rejection). -/
inductive ReturnCode where
  | SUCCESS
  | FAIL
  | EBUSY
  | EOFF
  | ENOMEM
  | ESIZE
  | ERESERVE
  | ENOSUPPORT
  deriving DecidableEq, Repr

/-- The per-process registration record `App` of `radio.rs`:
two optional callbacks and two optional granted buffers. -/
structure App where
  tx_callback : Option Nat
  rx_callback : Option Nat
  app_read : Option (List Nat)
  app_write : Option (List Nat)
  deriving DecidableEq, Repr

/-- Modelled from the spec: the hardware radio capability
(`kernel::hil::radio::Radio`, not among the shown sources).  Per spec
section 6 it provides `ready`, geometry constants `header_size` and
`payload_offset` (both `u8` values, so below 256), configuration
setters returning a status, and a `transmit` operation returning a
status.  `transmit_rval` is the status the capability returns for a
transmit request (`SUCCESS` means the request is accepted). -/
structure Radio where
  ready : Bool
  payload_offset : Nat
  header_size : Nat
  transmit_rval : ReturnCode
  set_address_rval : ReturnCode
  set_pan_rval : ReturnCode
  deriving DecidableEq, Repr

/-- The state of `RadioDriver`: the referenced radio, the busy flag,
the optional registration record (`TakeCell<App>`) and the optional
kernel transmission buffer (`TakeCell<&'static mut [u8]>`). -/
structure DriverState where
  radio : Radio
  busy : Bool
  app : Option App
  kernel_tx : Option (List Nat)
  deriving DecidableEq, Repr

/-- An invocation of the radio capability's `transmit(addr, buf, len)`:
the destination address, the buffer handed over, and the on-air length
(`u8`). -/
structure TransmitCall where
  addr : Nat
  buf : List Nat
  len : Nat
  deriving DecidableEq, Repr

/-- Result of a `command` syscall: the returned code, the post-state,
and the transmit invocation issued to the hardware capability, if any. -/
structure CmdResult where
  rc : ReturnCode
  state : DriverState
  tx : Option TransmitCall
  deriving DecidableEq, Repr

/-- The copy loop `for (i, c) in src[0..len] { dst[i + off] = c }` of
Rust: `none` when the loop would panic (the source slice `src[0..len]`
is malformed, or some written index `i + off` falls outside `dst`),
otherwise the updated destination. -/
def copyInto (dst src : List Nat) (off len : Nat) : Option (List Nat) :=
  if len ≤ src.length ∧ (len = 0 ∨ off + len ≤ dst.length) then
    some (dst.take off ++ src.take len ++ dst.drop (off + len))
  else
    none

/-- An empty registration record, as built by `allow`/`subscribe` when
`self.app` is empty. -/
def emptyApp : App :=
  { tx_callback := none, rx_callback := none, app_read := none, app_write := none }

/-- The record `self.app` holds, or the empty record when it holds
none; `allow`/`subscribe` update one field of this. -/
def appOrEmpty (o : Option App) : App :=
  o.getD emptyApp

/-- `Driver::allow` of `radio.rs`: selector 0 grants the
read-destination buffer, selector 1 the write-source buffer; any other
selector is unsupported.  `self.app.take()` either yields no record —
then a fresh record with only the granted field is built — or yields
the existing record, whose targeted field is overwritten; the record is
then put back with `self.app.replace`. -/
def allow (s : DriverState) (allow_num : Nat) (slice : List Nat) :
    ReturnCode × DriverState :=
  match allow_num with
  | 0 =>
      let appc : App :=
        match s.app with
        | none =>
            { tx_callback := none, rx_callback := none,
              app_read := some slice, app_write := none }
        | some appc => { appc with app_read := some slice }
      (ReturnCode.SUCCESS, { s with app := some appc })
  | 1 =>
      let appc : App :=
        match s.app with
        | none =>
            { tx_callback := none, rx_callback := none,
              app_read := none, app_write := some slice }
        | some appc => { appc with app_write := some slice }
      (ReturnCode.SUCCESS, { s with app := some appc })
  | _ => (ReturnCode.ENOSUPPORT, s)

/-- `Driver::subscribe` of `radio.rs`: selector 0 registers the
transmit-complete callback, selector 1 the receive callback; any other
selector is unsupported.  Same take/build-or-update/replace structure
as `allow`. -/
def subscribe (s : DriverState) (subscribe_num : Nat) (cb : Nat) :
    ReturnCode × DriverState :=
  match subscribe_num with
  | 0 =>
      let appc : App :=
        match s.app with
        | none =>
            { tx_callback := some cb, rx_callback := none,
              app_read := none, app_write := none }
        | some appc => { appc with tx_callback := some cb }
      (ReturnCode.SUCCESS, { s with app := some appc })
  | 1 =>
      let appc : App :=
        match s.app with
        | none =>
            { tx_callback := none, rx_callback := some cb,
              app_read := none, app_write := none }
        | some appc => { appc with rx_callback := some cb }
      (ReturnCode.SUCCESS, { s with app := some appc })
  | _ => (ReturnCode.ENOSUPPORT, s)

/-- The transmit path of `Driver::command` (selector 5).  Checks busy,
radio readiness and kernel-buffer presence in order; decodes the packed
argument; compares the requested length against the write-source
buffer's length; copies into the kernel buffer at the payload offset;
takes the kernel buffer and invokes `radio.transmit`.  The `return`
statements inside the `self.app.map` closure return from the closure
only: their value is dropped and the function falls through to
`return ReturnCode::ERESERVE`, so every path that reaches the closure
surfaces `ERESERVE` to the caller.  The on-air length is the `u8` sum
`len as u8 + header_size`, wrapping modulo 256.  `none` models the
panic of an out-of-bounds copy. -/
def transmitCmd (s : DriverState) (arg1 : Nat) : Option CmdResult :=
  if s.busy then
    some ⟨ReturnCode.EBUSY, s, none⟩
  else if !s.radio.ready then
    some ⟨ReturnCode.EOFF, s, none⟩
  else
    match s.kernel_tx with
    | none => some ⟨ReturnCode.ENOMEM, s, none⟩
    | some kbuf =>
        match s.app with
        | none => some ⟨ReturnCode.ERESERVE, s, none⟩
        | some app =>
            let blen := (app.app_write.map List.length).getD 0
            let len := (arg1 >>> 16) % 256
            let addr := arg1 % 65536
            if blen < len then
              some ⟨ReturnCode.ERESERVE, s, none⟩
            else
              let offset := s.radio.payload_offset
              let staged : Option (List Nat) :=
                match app.app_write with
                | none => some kbuf
                | some src => copyInto kbuf src offset len
              match staged with
              | none => none
              | some kbuf2 =>
                  let transmit_len := (len + s.radio.header_size) % 256
                  let rval := s.radio.transmit_rval
                  let s2 : DriverState :=
                    { s with
                      kernel_tx := none,
                      busy := if rval = ReturnCode.SUCCESS then true else s.busy }
                  some ⟨ReturnCode.ERESERVE, s2, some ⟨addr, kbuf2, transmit_len⟩⟩

/-- `Driver::command` of `radio.rs`: 0 presence check, 1 set address,
2 set PAN id, 3 and 4 unsupported, 5 transmit, 6 power status. -/
def command (s : DriverState) (cmd_num arg1 : Nat) : Option CmdResult :=
  match cmd_num with
  | 0 => some ⟨ReturnCode.SUCCESS, s, none⟩
  | 1 => some ⟨s.radio.set_address_rval, s, none⟩
  | 2 => some ⟨s.radio.set_pan_rval, s, none⟩
  | 3 => some ⟨ReturnCode.ENOSUPPORT, s, none⟩
  | 4 => some ⟨ReturnCode.ENOSUPPORT, s, none⟩
  | 5 => transmitCmd s arg1
  | 6 =>
      if s.radio.ready then
        some ⟨ReturnCode.SUCCESS, s, none⟩
      else
        some ⟨ReturnCode.EOFF, s, none⟩
  | _ => some ⟨ReturnCode.ENOSUPPORT, s, none⟩

/-- Result of a completion callback on the driver: the post-state and
the process callbacks scheduled (callback handle paired with the result
code it carries). -/
structure SendDoneResult where
  state : DriverState
  scheduled : List (Nat × ReturnCode)
  deriving DecidableEq, Repr

/-- `TxClient::send_done` of `radio.rs`: everything happens inside
`self.app.map`, so when no registration record exists nothing happens
at all; otherwise the buffer is put back into `kernel_tx`, the busy
flag is cleared, and the transmit callback, if registered, is taken
(leaving the field empty) and scheduled with the result code. -/
def send_done (s : DriverState) (buf : List Nat) (result : ReturnCode) :
    SendDoneResult :=
  match s.app with
  | none => ⟨s, []⟩
  | some app =>
      let s1 : DriverState := { s with kernel_tx := some buf, busy := false }
      match app.tx_callback with
      | some cb =>
          ⟨{ s1 with app := some { app with tx_callback := none } }, [(cb, result)]⟩
      | none => ⟨{ s1 with app := some app }, []⟩

/-- Result of the receive callback: the post-state, the scheduled
process callbacks, and the buffer handed back to the radio via
`set_receive_buffer` (if the path reaches that call). -/
structure RecvResult where
  state : DriverState
  scheduled : List (Nat × ReturnCode)
  returned_buf : Option (List Nat)
  deriving DecidableEq, Repr

/-- The destination copy of `RxClient::receive`:
`for (i, c) in buf[offset..len] { d[i] = c }`.  `none` when Rust would
panic: the slice `buf[offset..len]` is malformed (`offset > len` or
`len > buf.length`) or the write index reaches past the end of `dest`
(`len - offset > dest.length`). -/
def receiveCopy (dest buf : List Nat) (off len : Nat) : Option (List Nat) :=
  if off ≤ len ∧ len ≤ buf.length then
    copyInto dest ((buf.drop off).take (len - off)) 0 (len - off)
  else
    none

/-- `RxClient::receive` of `radio.rs`: when a registration record with a
read-destination buffer exists, copy `buf[offset..len]` to the start of
the destination and take-and-schedule the receive callback if
registered; in every non-faulting path the hardware buffer is handed
back through `set_receive_buffer`.  `none` models the panic of an
out-of-bounds copy, which aborts before `set_receive_buffer`. -/
def receive (s : DriverState) (buf : List Nat) (len : Nat)
    (result : ReturnCode) : Option RecvResult :=
  match s.app with
  | none => some ⟨s, [], some buf⟩
  | some app =>
      match app.app_read with
      | none => some ⟨s, [], some buf⟩
      | some dest =>
          match receiveCopy dest buf s.radio.payload_offset len with
          | none => none
          | some dest2 =>
              match app.rx_callback with
              | some cb =>
                  some ⟨{ s with
                          app := some { app with
                                        app_read := some dest2,
                                        rx_callback := none } },
                        [(cb, result)], some buf⟩
              | none =>
                  some ⟨{ s with app := some { app with app_read := some dest2 } },
                        [], some buf⟩

/-! ## Concrete states used by the example-level theorems -/

/-- A radio that is ready, with payload offset 1 and header size 2,
whose transmit operation accepts requests. -/
def acceptingRadio : Radio :=
  { ready := true, payload_offset := 1, header_size := 2,
    transmit_rval := ReturnCode.SUCCESS,
    set_address_rval := ReturnCode.SUCCESS,
    set_pan_rval := ReturnCode.SUCCESS }

/-- Same radio, but its transmit operation rejects with `EBUSY`. -/
def rejectingRadio : Radio :=
  { acceptingRadio with transmit_rval := ReturnCode.EBUSY }

/-- A registration record holding only a 3-byte write-source buffer. -/
def writeApp : App :=
  { emptyApp with app_write := some [10, 20, 30] }

/-- Idle driver, accepting radio, a 5-byte kernel buffer, and
`writeApp` registered: every transmit precondition holds. -/
def txReadyState : DriverState :=
  { radio := acceptingRadio, busy := false, app := some writeApp,
    kernel_tx := some [0, 0, 0, 0, 0] }

/-- As `txReadyState`, but the radio rejects transmit requests. -/
def txRejectState : DriverState :=
  { txReadyState with radio := rejectingRadio }

/-- A busy driver. -/
def busyState : DriverState :=
  { txReadyState with busy := true }

/-- A driver whose radio is not ready. -/
def offState : DriverState :=
  { txReadyState with radio := { acceptingRadio with ready := false } }

/-- A driver that owns no kernel transmission buffer. -/
def noBufState : DriverState :=
  { txReadyState with kernel_tx := none }

/-- A driver with a transmission in flight but no registration record:
`busy` is set, the kernel buffer is with the hardware, `app` is empty. -/
def noRecordBusyState : DriverState :=
  { radio := acceptingRadio, busy := true, app := none, kernel_tx := none }

/-- A driver with a registered 16-byte read-destination buffer, payload
offset 3, and no callbacks. -/
def smallDestState : DriverState :=
  { radio := { acceptingRadio with payload_offset := 3 }, busy := false,
    app := some { emptyApp with app_read := some (List.replicate 16 0) },
    kernel_tx := none }

/-- As `txReadyState`, but the radio reports the maximal `u8` header
size 255. -/
def bigHeaderState : DriverState :=
  { txReadyState with radio := { acceptingRadio with header_size := 255 } }

/-- A registration call: one of the four selector-0/1 `allow` and
`subscribe` operations, with its supplied value. -/
inductive RegOp where
  | allowRead (slice : List Nat)
  | allowWrite (slice : List Nat)
  | subTx (cb : Nat)
  | subRx (cb : Nat)
  deriving DecidableEq, Repr

/-- The driver state after one registration call. -/
def applyRegOp (s : DriverState) (op : RegOp) : DriverState :=
  match op with
  | RegOp.allowRead slice => (allow s 0 slice).2
  | RegOp.allowWrite slice => (allow s 1 slice).2
  | RegOp.subTx cb => (subscribe s 0 cb).2
  | RegOp.subRx cb => (subscribe s 1 cb).2

/-- The result code of one registration call. -/
def regOpRc (s : DriverState) (op : RegOp) : ReturnCode :=
  match op with
  | RegOp.allowRead slice => (allow s 0 slice).1
  | RegOp.allowWrite slice => (allow s 1 slice).1
  | RegOp.subTx cb => (subscribe s 0 cb).1
  | RegOp.subRx cb => (subscribe s 1 cb).1

/-- The driver state after a sequence of registration calls. -/
def runRegOps : DriverState → List RegOp → DriverState
  | s, [] => s
  | s, op :: ops => runRegOps (applyRegOp s op) ops

/-- Overwriting one targeted field of a record, per call. -/
def updateField (a : App) (op : RegOp) : App :=
  match op with
  | RegOp.allowRead slice => { a with app_read := some slice }
  | RegOp.allowWrite slice => { a with app_write := some slice }
  | RegOp.subTx cb => { a with tx_callback := some cb }
  | RegOp.subRx cb => { a with rx_callback := some cb }

/-- The record obtained from `a` by applying, per selector, the most
recent call of a sequence, in order. -/
def recordAfter : App → List RegOp → App
  | a, [] => a
  | a, op :: ops => recordAfter (updateField a op) ops

attribute [ext] DriverState

/-! ## C1, C2, C3: the transmit command's surfaced result code

In `RadioDriver::command`, selector 5, the `return` statements inside
the `self.app.map(|app| ...)` closure return from the closure, not from
`command`; the closure's value is discarded and `command` falls through
to `return ReturnCode::ERESERVE`.  So the caller receives `ERESERVE`
on every path that reaches the closure — also when the hardware accepts
(spec says `SUCCESS`), when it rejects (spec says the rejection code),
and when the size check fails (spec says `ESIZE`).  On rejection the
buffer taken out of `kernel_tx` is moreover never put back. -/

/-- C1: a transmit command that passes every precondition and whose
radio accepts (`transmit_rval = SUCCESS`) does set the busy flag, but
the syscall surfaces `ERESERVE` to the caller, not `SUCCESS`: the
`return ReturnCode::SUCCESS` inside the closure is discarded. -/
theorem transmit_accepted_sets_busy_but_returns_ereserve :
    (command txReadyState 5 ((2 <<< 16) + 0x1234)).map
        (fun r => (r.rc, r.state.busy, r.tx.isSome)) =
      some (ReturnCode.ERESERVE, true, true) := by decide

/-- C2: a transmit command whose radio rejects (`transmit_rval =
EBUSY`) leaves the busy flag clear, but the kernel transmission buffer
is not returned to the capsule (`kernel_tx` stays empty: the buffer was
taken and handed to `transmit`, and nothing restores it) and the
surfaced code is `ERESERVE`, not the rejection code. -/
theorem transmit_rejected_leaks_buffer_and_returns_ereserve :
    (command txRejectState 5 ((2 <<< 16) + 0x1234)).map
        (fun r => (r.rc, r.state.busy, r.state.kernel_tx, r.tx.isSome)) =
      some (ReturnCode.ERESERVE, false, none, true) := by decide

/-- C3: a transmit command whose requested length (12) exceeds the
granted write-source buffer's length (3) copies nothing, changes no
state and issues no transmit, but surfaces `ERESERVE`, not `ESIZE`:
the `return ReturnCode::ESIZE` inside the closure is discarded. -/
theorem transmit_oversize_returns_ereserve_not_esize :
    command txReadyState 5 ((12 <<< 16) + 0x1234) =
      some ⟨ReturnCode.ERESERVE, txReadyState, none⟩ := by decide

/-- C4: the transmit preconditions are checked in order, first failure
winning: busy → `EBUSY`; not busy but radio not ready → `EOFF`; not
busy, ready, but no kernel buffer → `ENOMEM`.  In each case the state
is unchanged and no transmit is issued. -/
theorem transmit_precondition_order (s : DriverState) (arg : Nat) :
    (s.busy = true → command s 5 arg = some ⟨ReturnCode.EBUSY, s, none⟩) ∧
    (s.busy = false → s.radio.ready = false →
      command s 5 arg = some ⟨ReturnCode.EOFF, s, none⟩) ∧
    (s.busy = false → s.radio.ready = true → s.kernel_tx = none →
      command s 5 arg = some ⟨ReturnCode.ENOMEM, s, none⟩) := by
  refine ⟨fun hb => ?_, fun hb hr => ?_, fun hb hr hk => ?_⟩
  · simp [command, transmitCmd, hb]
  · simp [command, transmitCmd, hb, hr]
  · simp [command, transmitCmd, hb, hr, hk]

/-- Witness for C4 at three concrete states. -/
theorem transmit_precondition_order_witness :
    command busyState 5 0 = some ⟨ReturnCode.EBUSY, busyState, none⟩ ∧
    command offState 5 0 = some ⟨ReturnCode.EOFF, offState, none⟩ ∧
    command noBufState 5 0 = some ⟨ReturnCode.ENOMEM, noBufState, none⟩ :=
  ⟨(transmit_precondition_order busyState 0).1 rfl,
   (transmit_precondition_order offState 0).2.1 rfl rfl,
   (transmit_precondition_order noBufState 0).2.2 rfl rfl rfl⟩

/-! ## C5: send_done -/

/-- C5 counterexample: when no registration record exists, `send_done`
does nothing at all — the whole body sits inside `self.app.map` — so
the buffer does not revert to the capsule and the busy flag stays set,
contradicting the claim that reclaim and busy-clear happen regardless
of registration state. -/
theorem send_done_without_record_changes_nothing :
    (send_done noRecordBusyState [1, 2, 3] ReturnCode.SUCCESS).state.busy = true ∧
    (send_done noRecordBusyState [1, 2, 3] ReturnCode.SUCCESS).state.kernel_tx =
      none := by decide

/-- C5 amended: for every `send_done` invocation in which a
registration record exists, the buffer reverts to `kernel_tx`, the
busy flag clears (whether or not a transmit callback is registered),
and a process callback is scheduled — carrying the result code —
exactly when the record's transmit callback is registered. -/
theorem send_done_with_record (s : DriverState) (app : App) (buf : List Nat)
    (res : ReturnCode) (h : s.app = some app) :
    (send_done s buf res).state.kernel_tx = some buf ∧
    (send_done s buf res).state.busy = false ∧
    (send_done s buf res).scheduled =
      (match app.tx_callback with
       | some cb => [(cb, res)]
       | none => []) := by
  cases hcb : app.tx_callback <;> simp [send_done, h, hcb]

/-- Witness for C5's amended theorem: one record with a registered
transmit callback, one without. -/
theorem send_done_with_record_witness :
    ((send_done { noRecordBusyState with
                  app := some { emptyApp with tx_callback := some 7 } }
        [1, 2] ReturnCode.FAIL).state.kernel_tx = some [1, 2] ∧
     (send_done { noRecordBusyState with
                  app := some { emptyApp with tx_callback := some 7 } }
        [1, 2] ReturnCode.FAIL).state.busy = false ∧
     (send_done { noRecordBusyState with
                  app := some { emptyApp with tx_callback := some 7 } }
        [1, 2] ReturnCode.FAIL).scheduled = [(7, ReturnCode.FAIL)]) ∧
    (send_done { noRecordBusyState with app := some emptyApp }
        [1, 2] ReturnCode.FAIL).scheduled = [] := by
  refine ⟨send_done_with_record _ _ _ _ rfl, ?_⟩
  have h := send_done_with_record
    { noRecordBusyState with app := some emptyApp } emptyApp [1, 2]
    ReturnCode.FAIL rfl
  exact h.2.2

/-! ## C6, C7: the receive path -/

/-- C6 counterexample: `receive` with a 20-byte hardware buffer,
reported length 20 and the 16-byte destination of `smallDestState`
copies 20 - 3 = 17 bytes into a 16-byte buffer; the out-of-bounds write
faults before `set_receive_buffer` runs, so the hardware buffer is not
returned to the receive pool on this invocation. -/
theorem receive_faulting_copy_skips_buffer_return :
    receive smallDestState (List.replicate 20 7) 20 ReturnCode.SUCCESS =
      none := by decide

/-- C6 amended: every `receive` invocation that completes (does not
fault on the destination copy) hands the hardware buffer back via
`set_receive_buffer`, regardless of whether a registration record or a
read-destination buffer exists. -/
theorem receive_returns_buffer (s : DriverState) (buf : List Nat) (len : Nat)
    (res : ReturnCode) (r : RecvResult)
    (h : receive s buf len res = some r) :
    r.returned_buf = some buf := by
  unfold receive at h
  split at h
  · cases h; rfl
  · split at h
    · cases h; rfl
    · split at h
      · cases h
      · split at h
        · cases h; rfl
        · cases h; rfl

/-- Witness for C6's amended theorem at a concrete completing
invocation: destination large enough, reported length 10, offset 3. -/
theorem receive_returns_buffer_witness :
    ∃ r, receive smallDestState (List.replicate 10 7) 10 ReturnCode.SUCCESS =
        some r ∧ r.returned_buf = some (List.replicate 10 7) := by
  cases hr : receive smallDestState (List.replicate 10 7) 10 ReturnCode.SUCCESS with
  | none => exact absurd hr (by decide)
  | some r =>
      exact ⟨r, rfl,
        receive_returns_buffer smallDestState (List.replicate 10 7) 10
          ReturnCode.SUCCESS r hr⟩

/-- C7: the receive path's copy length is the reported length minus the
payload offset, uncapped: there are a reported length (20) and a
registered destination size (16) — with payload offset 3 — for which
the copy writes past the destination's end (`receiveCopy` faults
because `len - off` exceeds the destination length), and the whole
`receive` invocation faults there. -/
theorem receive_copy_out_of_bounds_exists :
    ∃ (dest buf : List Nat) (off len : Nat),
      off ≤ len ∧ len ≤ buf.length ∧ dest.length < len - off ∧
      receiveCopy dest buf off len = none ∧
      (∃ s : DriverState, s.radio.payload_offset = off ∧
        s.app = some { emptyApp with app_read := some dest } ∧
        receive s buf len ReturnCode.FAIL = none) := by
  refine ⟨List.replicate 16 0, List.replicate 20 7, 3, 20,
    by decide, by decide, by decide, by decide, smallDestState,
    by decide, by decide, by decide⟩

/-! ## C8: transmit argument decoding, staging copy, on-air length -/

/-- C8 counterexample: with header size 255 and payload length 1, the
on-air length handed to `transmit` is the wrapping `u8` sum
`(1 + 255) mod 256 = 0`, not the arithmetic sum 256 the claim asserts. -/
theorem transmit_len_wraps_at_256 :
    ((command bigHeaderState 5 (1 <<< 16)).map fun r =>
        r.tx.map TransmitCall.len) = some (some 0) ∧
      1 + 255 ≠ 0 := by decide

/-- C8 amended: for every transmit command that reaches the hardware
(preconditions hold, a write-source buffer of sufficient length is
registered, and the staging copy fits the kernel buffer), the
destination address is the argument's low 16 bits, the kernel buffer
receives exactly `len` bytes — `len` being the argument's bits 16–23 —
from the start of the write-source buffer at the payload offset, and
the length passed to `transmit` is `(len + header_size) mod 256`, the
wrapping `u8` sum of payload length and header size. -/
theorem transmit_encoding (s : DriverState) (app : App) (w kbuf : List Nat)
    (arg : Nat) (hb : s.busy = false) (hr : s.radio.ready = true)
    (hk : s.kernel_tx = some kbuf) (ha : s.app = some app)
    (hw : app.app_write = some w)
    (hlen : (arg >>> 16) % 256 ≤ w.length)
    (hfit : s.radio.payload_offset + (arg >>> 16) % 256 ≤ kbuf.length) :
    ∃ rc s2, command s 5 arg =
        some ⟨rc, s2,
              some ⟨arg % 65536,
                    kbuf.take s.radio.payload_offset ++
                      w.take ((arg >>> 16) % 256) ++
                      kbuf.drop (s.radio.payload_offset + (arg >>> 16) % 256),
                    ((arg >>> 16) % 256 + s.radio.header_size) % 256⟩⟩ := by
  refine ⟨ReturnCode.ERESERVE,
    { s with kernel_tx := none,
             busy := if s.radio.transmit_rval = ReturnCode.SUCCESS then true
                     else s.busy }, ?_⟩
  simp [command, transmitCmd, copyInto, hb, hr, hk, ha, hw, hfit,
    Nat.not_lt.mpr hlen, hlen]

/-- Witness for C8's amended theorem: destination 0x1234, length 2,
payload offset 1, header size 2; the staged buffer is
`[0, 10, 20, 0, 0]` and the on-air length `(2 + 2) mod 256 = 4`. -/
theorem transmit_encoding_witness :
    ∃ rc s2, command txReadyState 5 ((2 <<< 16) + 0x1234) =
        some ⟨rc, s2, some ⟨0x1234, [0, 10, 20, 0, 0], 4⟩⟩ :=
  transmit_encoding txReadyState writeApp [10, 20, 30] [0, 0, 0, 0, 0]
    ((2 <<< 16) + 0x1234) rfl rfl rfl rfl rfl (by decide) (by decide)

/-! ## C9: registration-record frame property -/

lemma applyRegOp_app (s : DriverState) (op : RegOp) :
    (applyRegOp s op).app = some (updateField (appOrEmpty s.app) op) := by
  cases op <;> cases ha : s.app <;>
    simp [applyRegOp, allow, subscribe, updateField, appOrEmpty, emptyApp, ha]

lemma applyRegOp_frame (s : DriverState) (op : RegOp) :
    (applyRegOp s op).radio = s.radio ∧ (applyRegOp s op).busy = s.busy ∧
      (applyRegOp s op).kernel_tx = s.kernel_tx := by
  cases op <;> cases ha : s.app <;>
    simp [applyRegOp, allow, subscribe, ha]

lemma appOrEmpty_some (a : App) : appOrEmpty (some a) = a := rfl

lemma runRegOps_app (s : DriverState) (ops : List RegOp) :
    (runRegOps s ops).app =
      (match ops with
       | [] => s.app
       | _ :: _ => some (recordAfter (appOrEmpty s.app) ops)) := by
  induction ops generalizing s with
  | nil => rfl
  | cons op ops ih =>
      cases ops with
      | nil =>
          simpa [runRegOps, recordAfter] using applyRegOp_app s op
      | cons op2 ops2 =>
          rw [runRegOps, ih, applyRegOp_app]
          simp [recordAfter, appOrEmpty_some]

/-- C9: every selector-0/1 `allow`/`subscribe` call returns `SUCCESS`
and replaces exactly its targeted field of the registration record with
the supplied value, keeping the other three fields (starting from the
all-absent record when none existed) and touching nothing else of the
driver state; consequently, after any nonempty sequence of such calls
the record holds exactly the most recent value per selector and is
never reset. -/
theorem allow_subscribe_frame (s : DriverState) (op : RegOp)
    (ops : List RegOp) :
    regOpRc s op = ReturnCode.SUCCESS ∧
    applyRegOp s op =
      { s with app := some (updateField (appOrEmpty s.app) op) } ∧
    (runRegOps s (op :: ops)).app =
      some (recordAfter (updateField (appOrEmpty s.app) op) ops) := by
  refine ⟨?_, ?_, ?_⟩
  · cases op <;> simp [regOpRc, allow, subscribe]
  · obtain ⟨h2, h3, h4⟩ := applyRegOp_frame s op
    exact DriverState.ext h2 h3 (applyRegOp_app s op) h4
  · rw [runRegOps, runRegOps_app, applyRegOp_app]
    cases ops <;> simp [recordAfter, appOrEmpty_some]

/-! ## C10: completion paths consume callback registrations -/

/-- C10: `send_done` takes the transmit callback out of the record
(`app.tx_callback.take()`), so after it runs on a record with a
registered transmit callback that field is absent; likewise `receive`,
after a completed delivery into a registered read-destination buffer,
has taken the receive callback out of the record
(`app.rx_callback.take()`). -/
theorem completion_consumes_callbacks (s : DriverState) (app : App)
    (buf : List Nat) (len : Nat) (res : ReturnCode) :
    (s.app = some app → app.tx_callback.isSome = true →
      ∃ app2, (send_done s buf res).state.app = some app2 ∧
        app2.tx_callback = none) ∧
    (s.app = some app → app.app_read.isSome = true →
      ∀ r, receive s buf len res = some r →
        ∃ app2, r.state.app = some app2 ∧ app2.rx_callback = none) := by
  constructor
  · intro ha htx
    obtain ⟨cb, hcb⟩ := Option.isSome_iff_exists.mp htx
    exact ⟨{ app with tx_callback := none }, by simp [send_done, ha, hcb], rfl⟩
  · intro ha hread r hrec
    obtain ⟨dest, hdest⟩ := Option.isSome_iff_exists.mp hread
    unfold receive at hrec
    split at hrec
    · rename_i heq
      rw [ha] at heq
      cases heq
    · rename_i app9 heq
      rw [ha] at heq
      injection heq with heq2
      subst heq2
      split at hrec
      · rename_i hread2
        rw [hdest] at hread2
        cases hread2
      · rename_i dest2 hdest2
        split at hrec
        · cases hrec
        · rename_i d2 hcopy
          split at hrec
          · rename_i cb hcb
            cases hrec
            exact ⟨_, rfl, rfl⟩
          · rename_i hcb
            cases hrec
            exact ⟨{ app with app_read := some d2 }, rfl, hcb⟩

/-- Witness for C10 at a concrete state: a record with transmit
callback 5, receive callback 6 and a 16-byte read-destination buffer;
a 10-byte packet at payload offset 3 completes the receive path. -/
theorem completion_consumes_callbacks_witness :
    (∃ app2,
      (send_done { smallDestState with
                   app := some { emptyApp with
                                 tx_callback := some 5,
                                 rx_callback := some 6,
                                 app_read := some (List.replicate 16 0) } }
          [1, 2] ReturnCode.SUCCESS).state.app = some app2 ∧
        app2.tx_callback = none) ∧
    (∀ r, receive { smallDestState with
                    app := some { emptyApp with
                                  tx_callback := some 5,
                                  rx_callback := some 6,
                                  app_read := some (List.replicate 16 0) } }
        (List.replicate 10 7) 10 ReturnCode.SUCCESS = some r →
      ∃ app2, r.state.app = some app2 ∧ app2.rx_callback = none) := by
  have h := completion_consumes_callbacks
    { smallDestState with
      app := some { emptyApp with
                    tx_callback := some 5,
                    rx_callback := some 6,
                    app_read := some (List.replicate 16 0) } }
    { emptyApp with
      tx_callback := some 5,
      rx_callback := some 6,
      app_read := some (List.replicate 16 0) }
    [1, 2] 10 ReturnCode.SUCCESS
  refine ⟨h.1 rfl rfl, ?_⟩
  have h2 := completion_consumes_callbacks
    { smallDestState with
      app := some { emptyApp with
                    tx_callback := some 5,
                    rx_callback := some 6,
                    app_read := some (List.replicate 16 0) } }
    { emptyApp with
      tx_callback := some 5,
      rx_callback := some 6,
      app_read := some (List.replicate 16 0) }
    (List.replicate 10 7) 10 ReturnCode.SUCCESS
  exact h2.2 rfl rfl
